import Mathlib

/-!
Verification development for the social-media content-automation repository
(`backend/ingest/youtube_fetcher.py`, `backend/generation/content_generator.py`,
`backend/generation/vadoo_generator.py`, `app/main.py`).

The Python code is shallowly embedded: pure computations become Lean
functions, HTTP calls become explicit response oracles passed as arguments,
and Python exceptions become `Except` values.  Machine floats produced by
pandas element-wise division are modelled by `PdVal` (a rational, `inf`, or
`nan`, which is exactly the range reachable from non-negative integer
columns).
-/

namespace SMA

/-- `dict.fromkeys` order-preserving deduplication: keep the first occurrence
of every element. -/
def firstDedup {α : Type} [DecidableEq α] : List α → List α
  | [] => []
  | x :: xs => x :: (firstDedup xs).filter (fun y => y ≠ x)

theorem firstDedup_nodup {α : Type} [DecidableEq α] (l : List α) :
    (firstDedup l).Nodup := by
  induction l with
  | nil => simp [firstDedup]
  | cons x xs ih =>
    simp only [firstDedup, List.nodup_cons]
    constructor
    · intro hx
      exact (by simpa using (List.of_mem_filter hx) : ¬ x = x) rfl
    · exact ih.filter _

theorem mem_firstDedup {α : Type} [DecidableEq α] (a : α) (l : List α) :
    a ∈ firstDedup l ↔ a ∈ l := by
  induction l with
  | nil => simp [firstDedup]
  | cons x xs ih =>
    simp only [firstDedup, List.mem_cons, List.mem_filter, decide_not]
    constructor
    · rintro (rfl | ⟨h, _⟩)
      · exact Or.inl rfl
      · exact Or.inr (ih.1 h)
    · rintro (rfl | h)
      · exact Or.inl rfl
      · by_cases hax : a = x
        · exact Or.inl hax
        · exact Or.inr ⟨ih.2 h, by simp [hax]⟩

/-- The comparison used to model a *stable* descending sort by a `Nat` key:
sort index-value pairs lexicographically by (key descending, original
position ascending).  A stable sort by key is extensionally this
lexicographic sort on enumerated input. -/
def keyRel {α : Type} (key : α → ℕ) (a b : ℕ × α) : Prop :=
  key b.2 < key a.2 ∨ (key a.2 = key b.2 ∧ a.1 ≤ b.1)

instance keyRel.decidableRel {α : Type} (key : α → ℕ) :
    DecidableRel (keyRel key) := by
  intro a b
  unfold keyRel
  infer_instance

instance keyRel.isTotal {α : Type} (key : α → ℕ) :
    IsTotal (ℕ × α) (keyRel key) := by
  constructor
  intro a b
  rcases lt_trichotomy (key a.2) (key b.2) with h | h | h
  · exact Or.inr (Or.inl h)
  · rcases le_total a.1 b.1 with h1 | h1
    · exact Or.inl (Or.inr ⟨h, h1⟩)
    · exact Or.inr (Or.inr ⟨h.symm, h1⟩)
  · exact Or.inl (Or.inl h)

instance keyRel.isTrans {α : Type} (key : α → ℕ) :
    IsTrans (ℕ × α) (keyRel key) := by
  constructor
  intro a b c hab hbc
  unfold keyRel at *
  omega

/-- Stable descending sort of a list by a `Nat` key (models Python's stable
`sorted(..., key=key, reverse=True)` and pandas' descending
`sort_values`). -/
def stableSortDescBy {α : Type} (key : α → ℕ) (l : List α) : List α :=
  ((l.enum).insertionSort (keyRel key)).map Prod.snd

theorem stableSortDescBy_perm {α : Type} (key : α → ℕ) (l : List α) :
    List.Perm (stableSortDescBy key l) l := by
  have h1 : List.Perm ((l.enum).insertionSort (keyRel key)) l.enum :=
    List.perm_insertionSort _ _
  have h2 : List.Perm (((l.enum).insertionSort (keyRel key)).map Prod.snd)
      ((l.enum).map Prod.snd) := h1.map _
  simpa [stableSortDescBy, List.enum_map_snd] using h2

theorem stableSortDescBy_pairwise_key {α : Type} (key : α → ℕ) (l : List α) :
    (stableSortDescBy key l).Pairwise (fun a b => key b ≤ key a) := by
  have hs : ((l.enum).insertionSort (keyRel key)).Pairwise (keyRel key) :=
    List.sorted_insertionSort _ _
  exact hs.map Prod.snd (fun a b hab => by
    rcases hab with h | ⟨h, _⟩
    · exact le_of_lt h
    · exact le_of_eq h.symm)

end SMA

namespace SMA

/-- A pandas float value reachable from dividing non-negative integer
columns: a finite rational, `+inf`, or `nan`. -/
inductive PdVal where
  | val (q : ℚ)
  | inf
  | nan
  deriving DecidableEq, Repr

/-- pandas element-wise division of non-negative numerators by a
non-negative denominator: division by zero yields `inf` (or `nan` for
`0/0`) instead of raising. -/
def pdDiv (num den : ℕ) : PdVal :=
  if den = 0 then (if num = 0 then PdVal.nan else PdVal.inf)
  else PdVal.val ((num : ℚ) / (den : ℚ))

/-- pandas `Series.mean()` with the default `skipna=True` over such values:
`nan` entries are dropped; a remaining `inf` dominates; the mean of an
empty (or all-`nan`) series is `nan`. -/
def pdMean (l : List PdVal) : PdVal :=
  let vs := l.filter (fun x => x ≠ PdVal.nan)
  if vs.isEmpty then PdVal.nan
  else if vs.any (fun x => x = PdVal.inf) then PdVal.inf
  else PdVal.val ((vs.foldr (fun x acc => match x with
    | PdVal.val q => q + acc
    | _ => acc) 0) / (vs.length : ℚ))

/-- One record produced by `YouTubeFetcher.fetch_trending_videos`
(`backend/ingest/youtube_fetcher.py`, the `video_data` dict). -/
structure TrendingVideo where
  video_id : String
  title : String
  description : String
  published_at : String
  channel_id : String
  channel_title : String
  views : ℕ
  likes : ℕ
  comments : ℕ
  duration_seconds : ℚ
  duration_formatted : String
  tags : List String
  category_id : String
  deriving DecidableEq, Repr

/-- `Series.value_counts()` of pandas: frequency of each distinct element,
keys in first-seen order, then stably sorted by descending count.  The
stable sort is realised as the lexicographic sort on (count descending,
first-seen index ascending). -/
def value_counts (l : List String) : List (String × ℕ) :=
  stableSortDescBy (fun p => p.2) ((firstDedup l).map (fun k => (k, l.count k)))

/-- The analysis dictionary built by `analyze_video_performance`.
`engagement_rates` is the computed `df['engagement_rate']` column (also
surfaced through the `top_videos` records in the source); the `top_videos`
entry itself carries no further claim-relevant structure and is omitted. -/
structure AnalysisSummary where
  average_duration_seconds : ℚ
  common_tags : List (String × ℕ)
  top_categories : List (String × ℕ)
  average_engagement_rate : PdVal
  engagement_rates : List PdVal
  deriving DecidableEq, Repr

/-- `YouTubeFetcher.analyze_video_performance`.  On the empty list,
`pd.DataFrame([])` has no columns at all, so `df['likes']` raises
`KeyError`; this is modelled by the `Except.error` branch.  Otherwise the
engagement column is the pandas element-wise division (never raising,
`inf`/`nan` on zero views), `common_tags` is
`df['tags'].explode().value_counts().head(5)` (explode of an empty tag
list yields a `NaN` entry, which `value_counts` drops, so flattening is
exact), and `top_categories` is `df['category_id'].value_counts().head(3)`. -/
def analyze_video_performance (videos : List TrendingVideo) :
    Except Unit AnalysisSummary :=
  match videos with
  | [] => Except.error ()
  | v :: vs =>
    let all := v :: vs
    let rates := all.map (fun w => pdDiv (w.likes + w.comments) w.views)
    Except.ok
      { average_duration_seconds :=
          (all.map (fun w => w.duration_seconds)).sum / (all.length : ℚ)
        common_tags := (value_counts (all.flatMap (fun w => w.tags))).take 5
        top_categories := (value_counts (all.map (fun w => w.category_id))).take 3
        average_engagement_rate := pdMean rates
        engagement_rates := rates }

/-- The guarded per-video engagement formula used by the presentation layer
(`app/main.py`: `(likes + comments) / views if views > 0 else 0`). -/
def display_engagement (likes comments views : ℕ) : ℚ :=
  if views > 0 then ((likes : ℚ) + (comments : ℚ)) / (views : ℚ) else 0

/-! ## Content generator (`backend/generation/content_generator.py`) -/

/-- `str.lower()` (on the basic-latin letters the inputs use), defined over
the character list so that it evaluates inside the kernel. -/
def strToLower (s : String) : String := String.mk (s.toList.map Char.toLower)

/-- `str.strip()`: remove leading and trailing whitespace. -/
def strTrim (s : String) : String :=
  String.mk
    ((((s.toList.dropWhile Char.isWhitespace).reverse.dropWhile
      Char.isWhitespace).reverse))

/-- Helper for `splitComma`: `cur` holds the current field reversed. -/
def splitCommaAux : List Char → List Char → List (List Char)
  | [], cur => [cur.reverse]
  | x :: xs, cur =>
    if x = ',' then cur.reverse :: splitCommaAux xs []
    else splitCommaAux xs (x :: cur)

/-- Python's `s.split(',')`. -/
def splitComma (s : String) : List String :=
  (splitCommaAux s.toList []).map String.mk

/-- Python's `s.replace(old, new)` for a single-character pattern. -/
def replaceChar (old new : Char) (s : String) : String :=
  String.mk (s.toList.map (fun c => if c = old then new else c))

/-- Python's `','.join(parts)`. -/
def joinComma : List String → String
  | [] => ""
  | [s] => s
  | s :: rest => s ++ "," ++ joinComma rest

/-- A character matched by the regex class `\w` (used in `\b\w+\b`). -/
def isWordChar (c : Char) : Bool := c.isAlphanum || c = '_'

/-- Helper for `findWords`: scan characters, `cur` holds the current word
reversed. -/
def wordsAux : List Char → List Char → List String
  | [], cur => if cur.isEmpty then [] else [String.mk cur.reverse]
  | c :: cs, cur =>
    if isWordChar c then wordsAux cs (c :: cur)
    else if cur.isEmpty then wordsAux cs []
    else String.mk cur.reverse :: wordsAux cs []

/-- `re.findall(r'\b\w+\b', s)`: the maximal runs of word characters. -/
def findWords (s : String) : List String := wordsAux s.toList []

/-- The topic half of the tag extraction of `generate_content`:
`[t.strip() for t in topic.split(',') if t.strip()]`, guarded by
`if topic:`. -/
def topic_tags (topic : String) : List String :=
  if topic = "" then []
  else ((splitComma topic).map strTrim).filter (fun t => t ≠ "")

/-- The summary half of the tag extraction: for each word token, append its
lower-casing when it is not already present and the token is longer than 3
characters. -/
def add_summary_tags (tags0 : List String) (words : List String) : List String :=
  words.foldl (fun acc w =>
    if strToLower w ∉ acc ∧ w.length > 3 then acc ++ [strToLower w] else acc)
    tags0

/-- The complete tag-extraction step of `generate_content`: topic tags, then
summary tokens, then `list(dict.fromkeys(tags))[:5]`. -/
def extract_tags (topic story_summary : String) : List String :=
  let tags := topic_tags topic
  let tags := if story_summary = "" then tags
              else add_summary_tags tags (findWords story_summary)
  (firstDedup tags).take 5

/-- `length_map.get(length.lower(), "60")` with
`length_map = {"short": "30", "medium": "60", "long": "120"}`. -/
def length_map_get (length : String) : String :=
  let l := strToLower length
  if l = "short" then "30"
  else if l = "medium" then "60"
  else if l = "long" then "120"
  else "60"

/-- The dictionary returned by `ContentGenerator.generate_content`. -/
structure GeneratedContent where
  video_prompt : String
  video_length : String
  tags : List String
  deriving DecidableEq, Repr

/-- `ContentGenerator.generate_content`.  The LLM completion is an oracle
argument (`llm_reply`); the code strips it and collapses newlines, extracts
tags from topic + story summary, and maps the length selector through
`length_map` after lower-casing.  `content_type` and `tone` only feed the
LLM prompt text and do not influence the returned record beyond the oracle. -/
def generate_content (llm_reply : String)
    (topic content_type tone length story_summary : String) : GeneratedContent :=
  { video_prompt := replaceChar '\n' ' ' (strTrim llm_reply)
    video_length := length_map_get length
    tags := extract_tags topic story_summary }

/-- Outcome of `json.loads` on the completion text inside
`analyze_trending_topics` (the JSON parser itself is library code, so it is
an oracle): parsed payload, a `json.JSONDecodeError`, or any other
exception while processing. -/
inductive CompletionParse where
  | parsed (themes formats patterns factors : List String)
  | decodeError
  | otherError (msg : String)
  deriving DecidableEq, Repr

/-- Value of `analysis_result` in `analyze_trending_topics`: either the
parsed structure or the `{"error": ...}` placeholder dictionary. -/
inductive AnalysisResult where
  | ok (themes formats patterns factors : List String)
  | errorDict (msg : String)
  deriving DecidableEq, Repr

/-- `ContentGenerator.analyze_trending_topics`, given the outcome of
parsing the completion: a `JSONDecodeError` degrades to
`{"error": "Invalid analysis format"}`, any other processing exception to
`{"error": "Could not process analysis"}`; no exception propagates from the
parse step. -/
def analyze_trending_topics (completion : CompletionParse) : AnalysisResult :=
  match completion with
  | .parsed t f p s => .ok t f p s
  | .decodeError => .errorDict "Invalid analysis format"
  | .otherError _ => .errorDict "Could not process analysis"

/-! ## Video generation client (`backend/generation/vadoo_generator.py`) -/

/-- The decoded JSON body answered by the text2video endpoint (and by the
fetch/poll endpoint, which shares the shape). -/
structure ApiResponse where
  status : String
  eta : Option ℕ
  fetch_result : Option String
  future_links : List String
  output : List String
  message : Option String
  deriving DecidableEq, Repr

/-- A Python value returned by `generate_video_from_text`: `None`, a plain
URL string, or the `processing` descriptor dict. -/
inductive PyReturn where
  | pyNone
  | url (u : String)
  | processing (eta : Option ℕ) (fetch_url : Option String)
      (future_video_url : Option String)
  deriving DecidableEq, Repr

/-- An exception raised inside the `try` body of
`generate_video_from_text`. -/
inductive GenErr where
  | valueError (msg : String)
  | requestError
  deriving DecidableEq, Repr

/-- The validation chain at the top of `generate_video_from_text`: the
message of the first `ValueError` it raises, or `none` when every
parameter passes. -/
def validate_params (text_prompt model_id : String)
    (height width num_frames num_inference_steps : ℕ) (guidance_scale : ℚ)
    (output_type : String) (fps : ℕ) : Option String :=
  if text_prompt = "" then
    some "Text prompt cannot be empty"
  else if ¬ (model_id = "cogvideox" ∨ model_id = "wanx") then
    some "Invalid model_id. Must be cogvideox or wanx"
  else if height > 512 ∨ width > 512 then
    some "Height and width cannot exceed 512 pixels"
  else if num_frames > 25 then
    some "Number of frames cannot exceed 25"
  else if num_inference_steps > 50 then
    some "Number of inference steps cannot exceed 50"
  else if guidance_scale < 0 ∨ guidance_scale > 8 then
    some "Guidance scale must be between 0 and 8"
  else if ¬ (output_type = "mp4" ∨ output_type = "gif") then
    some "Output type must be mp4 or gif"
  else if fps > 16 then
    some "FPS cannot exceed 16"
  else none

/-- The `try` body of `ModelslabVideoGenerator.generate_video_from_text`:
parameter validation raises `ValueError` before the POST; the POST outcome
is the oracle `resp` (`Except.error` covering transport failures,
`raise_for_status` and undecodable bodies).  The boolean records whether
the network request was issued. -/
def gen_body (resp : Except Unit ApiResponse) (text_prompt model_id : String)
    (height width num_frames num_inference_steps : ℕ) (guidance_scale : ℚ)
    (output_type : String) (fps : ℕ) : Except GenErr PyReturn × Bool :=
  match validate_params text_prompt model_id height width num_frames
      num_inference_steps guidance_scale output_type fps with
  | some msg => (.error (.valueError msg), false)
  | none =>
    match resp with
    | .error _ => (.error .requestError, true)
    | .ok r =>
      if r.status = "processing" then
        (.ok (.processing r.eta r.fetch_result r.future_links.head?), true)
      else if r.status = "success" then
        (.ok (match r.output with | [] => .pyNone | u :: _ => .url u), true)
      else
        (.ok .pyNone, true)

/-- `ModelslabVideoGenerator.generate_video_from_text` as seen by its
caller: every exception of the body — validation `ValueError`s included —
is caught by the function's own `except` clauses, which return `None`.
The boolean records whether the network request was issued. -/
def generate_video_from_text (resp : Except Unit ApiResponse)
    (text_prompt model_id : String)
    (height width num_frames num_inference_steps : ℕ) (guidance_scale : ℚ)
    (output_type : String) (fps : ℕ) : PyReturn × Bool :=
  match gen_body resp text_prompt model_id height width num_frames
      num_inference_steps guidance_scale output_type fps with
  | (.error _, b) => (.pyNone, b)
  | (.ok v, b) => (v, b)

/-! ## Poll loop (`app/main.py`, `show_content_analysis_and_generation`) -/

/-- Decoded body of one GET of the fetch URL. -/
structure FetchResp where
  status : String
  eta : Option ℕ
  output : List String
  message : Option String
  deriving DecidableEq, Repr

/-- How the poll loop ends. -/
inductive PollOutcome where
  | timeout
  | gotUrl (u : String)
  | requestError
  | statusError (msg : Option String)
  | indexError
  deriving DecidableEq, Repr

/-- The body of the `while attempt < max_attempts` loop of `app/main.py`,
counting GETs of the fetch URL.  `resp i` is the decoded response of the
GET issued at `attempt = i` (`Except.error` for a `RequestException`,
which the inner handler turns into an error message and a `break`).
A `success` response with an empty `output` list makes
`fetch_result.get("output", [])[0]` raise `IndexError`, which no handler in
the loop catches (`indexError`).  A `processing` response sleeps for the
reported ETA (default 5) and retries.  Exhausted fuel is the
`attempt >= max_attempts` exit. -/
def pollAux (resp : ℕ → Except Unit FetchResp) (attempt fuel : ℕ) :
    ℕ × PollOutcome :=
  match fuel with
  | 0 => (0, .timeout)
  | Nat.succ fuel' =>
    match resp attempt with
    | .error _ => (1, .requestError)
    | .ok r =>
      if r.status = "success" then
        match r.output with
        | [] => (1, .indexError)
        | u :: _ => (1, .gotUrl u)
      else if r.status = "processing" then
        let rest := pollAux resp (attempt + 1) fuel'
        (rest.1 + 1, rest.2)
      else (1, .statusError r.message)

/-- The poll loop with its fixed cap `max_attempts = 10`, starting at
`attempt = 0`: returns the number of GETs performed and the outcome.  The
`timeout` outcome corresponds to the post-loop
`attempt >= max_attempts` check that shows the
"Video generation is taking longer than expected" warning. -/
def poll_loop (resp : ℕ → Except Unit FetchResp) : ℕ × PollOutcome :=
  pollAux resp 0 10

/-- Overall outcome of the Generate Video button handler. -/
inductive FlowOutcome where
  | videoShown (u : String)
  | pollTimeout
  | pollRequestError
  | pollStatusError (msg : Option String)
  | generationFailed
  | nothingShown
  | appError
  deriving DecidableEq, Repr

/-- The video-generation branch of `show_content_analysis_and_generation`
(`app/main.py` lines 273-385): submit via `generate_video_from_text`
(the POST outcome is `submit`), then either display a directly returned
URL, or sleep and run the poll loop on a `processing` descriptor, or report
failure.  Returns the total number of backend interactions (POST plus
polling GETs) and the outcome.  A `processing` descriptor whose ETA is
absent makes `time.sleep(None)` raise, reaching the outer generic handler
(`appError`); likewise an `IndexError` escaping the loop. -/
def video_generation_flow (submit : Except Unit ApiResponse)
    (polls : ℕ → Except Unit FetchResp)
    (text_prompt : String) (num_frames : ℕ) : ℕ × FlowOutcome :=
  let g := generate_video_from_text submit text_prompt "cogvideox" 512 512
      num_frames 20 (7 : ℚ) "mp4" 7
  let calls := if g.2 then 1 else 0
  match g.1 with
  | .processing eta _ _ =>
    match eta with
    | none => (calls, .appError)
    | some _ =>
      let p := poll_loop polls
      (calls + p.1, match p.2 with
        | .timeout => .pollTimeout
        | .gotUrl u => if u ≠ "" then .videoShown u else .nothingShown
        | .requestError => .pollRequestError
        | .statusError m => .pollStatusError m
        | .indexError => .appError)
  | .url u => if u ≠ "" then (calls, .videoShown u) else (calls, .generationFailed)
  | .pyNone => (calls, .generationFailed)

/-! ## Trend fetcher (`backend/ingest/youtube_fetcher.py`) -/

def digitsToNat (ds : List Char) : ℕ :=
  ds.foldl (fun acc c => acc * 10 + (c.toNat - 48)) 0

/-- Read one `<digits><designator>` component; on mismatch consume
nothing. -/
def parseComp (cs : List Char) (d : Char) : Option ℕ × List Char :=
  let ds := cs.takeWhile Char.isDigit
  match cs.dropWhile Char.isDigit with
  | c :: rest => if c = d ∧ ¬ ds.isEmpty then (some (digitsToNat ds), rest) else (none, cs)
  | [] => (none, cs)

/-- `isodate.parse_duration(...).total_seconds()` on the common subset of
ISO-8601 durations `P[nD][T[nH][nM][nS]]` (whole numbers; year/month/week
designators and fractional parts are outside the modelled subset).  `none`
models the `ISO8601Error` the library raises on a malformed string. -/
def parse_duration (s : String) : Option ℚ :=
  match s.toList with
  | 'P' :: rest =>
    let dd := parseComp rest 'D'
    match dd.2 with
    | 'T' :: tr =>
      let hh := parseComp tr 'H'
      let mm := parseComp hh.2 'M'
      let ss := parseComp mm.2 'S'
      if ss.2 = [] ∧ (hh.1.isSome ∨ mm.1.isSome ∨ ss.1.isSome) then
        some (((dd.1.getD 0) * 86400 + (hh.1.getD 0) * 3600 +
          (mm.1.getD 0) * 60 + ss.1.getD 0 : ℕ) : ℚ)
      else none
    | [] =>
      match dd.1 with
      | some d => some ((d * 86400 : ℕ) : ℚ)
      | none => none
    | _ => none
  | _ => none

def pad2 (n : ℕ) : String := if n < 10 then "0" ++ toString n else toString n

/-- `str(timedelta(seconds=int(duration)))`. -/
def timedelta_str (totalSeconds : ℕ) : String :=
  let d := totalSeconds / 86400
  let h := (totalSeconds % 86400) / 3600
  let m := (totalSeconds % 3600) / 60
  let s := totalSeconds % 60
  let hms := toString h ++ ":" ++ pad2 m ++ ":" ++ pad2 s
  if d = 0 then hms
  else toString d ++ (if d = 1 then " day, " else " days, ") ++ hms

/-- One item of the video-detail endpoint's response
(`snippet` + `contentDetails` + `statistics`), with the fields the fetcher
reads; `Option` marks the keys accessed through `.get` with a default. -/
structure VideoItem where
  id : String
  title : String
  description : String
  publishedAt : String
  channelId : String
  channelTitle : String
  viewCount : Option ℕ
  likeCount : Option ℕ
  commentCount : Option ℕ
  duration : String
  tags : Option (List String)
  categoryId : String
  deriving DecidableEq, Repr

/-- The `video_data` dict built for one response item; `none` when
`isodate.parse_duration` raises on the duration string. -/
def video_data_of_item (it : VideoItem) : Option TrendingVideo :=
  match parse_duration it.duration with
  | none => none
  | some dur =>
    some { video_id := it.id
           title := it.title
           description := it.description
           published_at := it.publishedAt
           channel_id := it.channelId
           channel_title := it.channelTitle
           views := it.viewCount.getD 0
           likes := it.likeCount.getD 0
           comments := it.commentCount.getD 0
           duration_seconds := dur
           duration_formatted := timedelta_str dur.floor.toNat
           tags := it.tags.getD []
           category_id := it.categoryId }

/-- A failure of `execute()` on an API request: either a `googleapiclient`
`HttpError` (a non-2xx API response), which `fetch_trending_videos`
catches, or a non-`HttpError` transport exception (connection refused,
DNS failure, `socket.timeout`, ...), which no handler in the function
catches. -/
inductive ApiFail where
  | httpError
  | transportError
  deriving DecidableEq, Repr

/-- The Python exceptions that can escape `fetch_trending_videos`: the
duration-parse failure (`ISO8601Error`) and any non-`HttpError` transport
exception, since the `except` clause catches `HttpError` alone. -/
inductive FetchErr where
  | parseError
  | transportError
  deriving DecidableEq, Repr

/-- The `for item in videos_response['items']` loop: convert items in
order, the first conversion failure aborting with the uncaught
exception. -/
def buildVideos : List VideoItem → Option (List TrendingVideo)
  | [] => some []
  | it :: its =>
    match video_data_of_item it with
    | none => none
    | some v =>
      match buildVideos its with
      | none => none
      | some vs => some (v :: vs)

/-- `YouTubeFetcher.fetch_trending_videos`.  `searchResp` is the outcome of
the search request as the list of extracted video identifiers, `videosApi`
maps the comma-joined identifier string of the detail request to its
outcome.  An `HttpError` from either request is caught by the function's
only `except` clause, which prints a message and returns `[]`; a
non-`HttpError` transport exception propagates to the caller
(`Except.error .transportError`).  Surviving items are converted (a
malformed duration propagating `Except.error .parseError`), sorted by
views descending (Python's stable `sorted(..., reverse=True)`) and
truncated to `max_results`.  (The search request itself asks for
`max_results * 2` candidates; that parameter lives inside the request the
oracle answers.) -/
def fetch_trending_videos (searchResp : Except ApiFail (List String))
    (videosApi : String → Except ApiFail (List VideoItem)) (max_results : ℕ) :
    Except FetchErr (List TrendingVideo) :=
  match searchResp with
  | .error .httpError => .ok []
  | .error .transportError => .error .transportError
  | .ok video_ids =>
    match videosApi (joinComma video_ids) with
    | .error .httpError => .ok []
    | .error .transportError => .error .transportError
    | .ok items =>
      match buildVideos items with
      | none => .error .parseError
      | some videos =>
        .ok ((stableSortDescBy (fun v => v.views) videos).take max_results)

end SMA

namespace SMA

/-! ## Helper lemmas -/

theorem pdDiv_cases (n d : ℕ) :
    pdDiv n d = if 0 < d then PdVal.val ((n : ℚ) / (d : ℚ))
      else if n = 0 then PdVal.nan else PdVal.inf := by
  unfold pdDiv
  by_cases hd : d = 0
  · subst hd; simp
  · simp [hd, Nat.pos_of_ne_zero hd]

/-- A sample fetched video with zero views but nonzero likes. -/
def zeroViewsVideo : TrendingVideo :=
  { video_id := "v0", title := "t", description := "", published_at := "",
    channel_id := "c", channel_title := "ct", views := 0, likes := 1,
    comments := 0, duration_seconds := 10, duration_formatted := "0:00:10",
    tags := [], category_id := "24" }

/-! ## C1 -/

/-- C1 counterexample: on a video with `views = 0` and `likes = 1`,
`analyze_video_performance` computes the engagement rate by unguarded
element-wise division, yielding `inf` — not `0` as the claim states. -/
theorem C1_zero_views_engagement_not_zero :
    (analyze_video_performance [zeroViewsVideo]).map
      (fun s => s.engagement_rates) = Except.ok [PdVal.inf] ∧
    PdVal.inf ≠ PdVal.val 0 := by
  constructor
  · rfl
  · decide

/-- C1 amended: for every non-empty video list the engagement column is
`(likes+comments)/views` whenever `views > 0`, but for `views = 0` it is
`inf` (or `nan` when `likes+comments = 0`), never `0`; pandas division
raises no exception.  The guarded formula — rate `0` when `views = 0` —
is the one used by the per-video display in `app/main.py`
(`display_engagement`), not by `analyze_video_performance`. -/
theorem C1_amended_engagement_column (videos : List TrendingVideo)
    (h : videos ≠ []) :
    (analyze_video_performance videos).map (fun s => s.engagement_rates) =
      Except.ok (videos.map (fun v =>
        if 0 < v.views then
          PdVal.val (((v.likes : ℚ) + (v.comments : ℚ)) / (v.views : ℚ))
        else if v.likes + v.comments = 0 then PdVal.nan else PdVal.inf)) ∧
    (∀ likes comments : ℕ, display_engagement likes comments 0 = 0) := by
  constructor
  · cases videos with
    | nil => exact absurd rfl h
    | cons v vs =>
      simp only [analyze_video_performance, Except.map]
      refine congrArg Except.ok ?_
      refine List.map_congr_left ?_
      intro w _
      rw [pdDiv_cases]
      push_cast
      rfl
  · intro likes comments
    simp [display_engagement]

/-- Witness for the amended C1 theorem at a concrete one-element input. -/
theorem C1_amended_engagement_column_witness :
    ([zeroViewsVideo] ≠ ([] : List TrendingVideo)) ∧
    ((analyze_video_performance [zeroViewsVideo]).map
        (fun s => s.engagement_rates) =
      Except.ok ([zeroViewsVideo].map (fun v =>
        if 0 < v.views then
          PdVal.val (((v.likes : ℚ) + (v.comments : ℚ)) / (v.views : ℚ))
        else if v.likes + v.comments = 0 then PdVal.nan else PdVal.inf)) ∧
    (∀ likes comments : ℕ, display_engagement likes comments 0 = 0)) :=
  ⟨List.cons_ne_nil _ _,
   C1_amended_engagement_column [zeroViewsVideo] (List.cons_ne_nil _ _)⟩

/-! ## C10 -/

/-- C10: `analyze_video_performance` applied to the empty list raises
(`pd.DataFrame([])` has no `likes` column, so `df['likes']` raises
`KeyError`), and on every non-empty list it returns an
`AnalysisSummary`. -/
theorem C10_analyze_empty_raises :
    analyze_video_performance [] = Except.error () ∧
    ∀ videos : List TrendingVideo, videos ≠ [] →
      ∃ s, analyze_video_performance videos = Except.ok s := by
  constructor
  · rfl
  · intro videos h
    cases videos with
    | nil => exact absurd rfl h
    | cons v vs => exact ⟨_, rfl⟩

/-- Witness for C10 at concrete inputs. -/
theorem C10_analyze_empty_raises_witness :
    analyze_video_performance [] = Except.error () ∧
    ∃ s, analyze_video_performance [zeroViewsVideo] = Except.ok s :=
  ⟨C10_analyze_empty_raises.1,
   C10_analyze_empty_raises.2 [zeroViewsVideo] (List.cons_ne_nil _ _)⟩

/-! ## C5 -/

/-- C5 counterexample: a non-`HttpError` transport exception raised by
`execute()` (connection refused, DNS failure, `socket.timeout`, ...) is
not caught — the only handler is `except HttpError` — so
`fetch_trending_videos` propagates it instead of returning an empty
sequence, on either of the two requests. -/
theorem C5_transport_error_not_caught :
    fetch_trending_videos (Except.error ApiFail.transportError)
      (fun _ => Except.error ApiFail.transportError) 20 =
      Except.error FetchErr.transportError ∧
    fetch_trending_videos (Except.ok ["a"])
      (fun _ => Except.error ApiFail.transportError) 20 =
      Except.error FetchErr.transportError ∧
    (Except.error FetchErr.transportError :
      Except FetchErr (List TrendingVideo)) ≠ Except.ok [] := by
  refine ⟨rfl, rfl, ?_⟩
  intro h
  cases h

/-- C5 amended: an `HttpError` (the API's structured non-2xx failure) from
either request is caught and turned into the empty sequence, and a search
response with zero identifiers also yields the empty sequence (the
follow-up detail request for the empty identifier string returning either
no items or an `HttpError`); but a non-`HttpError` transport exception
from either request propagates to the caller uncaught. -/
theorem C5_amended_fetch_soft_fail :
    (∀ (videosApi : String → Except ApiFail (List VideoItem)) (m : ℕ),
      fetch_trending_videos (Except.error ApiFail.httpError) videosApi m =
        Except.ok []) ∧
    (∀ (ids : List String)
        (videosApi : String → Except ApiFail (List VideoItem)) (m : ℕ),
      videosApi (joinComma ids) = Except.error ApiFail.httpError →
      fetch_trending_videos (Except.ok ids) videosApi m = Except.ok []) ∧
    (∀ (videosApi : String → Except ApiFail (List VideoItem)) (m : ℕ),
      fetch_trending_videos (Except.error ApiFail.transportError) videosApi
        m = Except.error FetchErr.transportError) ∧
    (∀ (ids : List String)
        (videosApi : String → Except ApiFail (List VideoItem)) (m : ℕ),
      videosApi (joinComma ids) = Except.error ApiFail.transportError →
      fetch_trending_videos (Except.ok ids) videosApi m =
        Except.error FetchErr.transportError) ∧
    (∀ (videosApi : String → Except ApiFail (List VideoItem)) (m : ℕ),
      (videosApi "" = Except.ok [] ∨
        videosApi "" = Except.error ApiFail.httpError) →
      fetch_trending_videos (Except.ok []) videosApi m = Except.ok []) := by
  refine ⟨fun videosApi m => rfl, ?_, fun videosApi m => rfl, ?_, ?_⟩
  · intro ids videosApi m h
    simp only [fetch_trending_videos, h]
  · intro ids videosApi m h
    simp only [fetch_trending_videos, h]
  · intro videosApi m h
    have hj : joinComma ([] : List String) = "" := rfl
    rcases h with h | h <;>
      simp only [fetch_trending_videos, hj, h, buildVideos, stableSortDescBy,
        List.enum_nil, List.insertionSort, List.map_nil, List.take_nil]

/-- Witness for the amended C5 theorem at concrete inputs. -/
theorem C5_amended_fetch_soft_fail_witness :
    fetch_trending_videos (Except.error ApiFail.httpError)
      (fun _ => Except.error ApiFail.httpError) 20 = Except.ok [] ∧
    fetch_trending_videos (Except.ok ["a", "b"])
      (fun _ => Except.error ApiFail.httpError) 20 = Except.ok [] ∧
    fetch_trending_videos (Except.ok ["a", "b"])
      (fun _ => Except.error ApiFail.transportError) 20 =
      Except.error FetchErr.transportError ∧
    fetch_trending_videos (Except.ok [])
      (fun _ => Except.ok []) 20 = Except.ok [] :=
  ⟨C5_amended_fetch_soft_fail.1 _ 20,
   C5_amended_fetch_soft_fail.2.1 ["a", "b"] _ 20 rfl,
   C5_amended_fetch_soft_fail.2.2.2.1 ["a", "b"] _ 20 rfl,
   C5_amended_fetch_soft_fail.2.2.2.2 _ 20 (Or.inl rfl)⟩

end SMA

namespace SMA

/-! ## Poll-loop lemmas -/

theorem pollAux_step (resp : ℕ → Except Unit FetchResp) (attempt fuel : ℕ) :
    pollAux resp attempt (fuel + 1) =
      match resp attempt with
      | .error _ => (1, .requestError)
      | .ok r =>
        if r.status = "success" then
          match r.output with
          | [] => (1, .indexError)
          | u :: _ => (1, .gotUrl u)
        else if r.status = "processing" then
          let rest := pollAux resp (attempt + 1) fuel
          (rest.1 + 1, rest.2)
        else (1, .statusError r.message) := rfl

theorem pollAux_processing (resp : ℕ → Except Unit FetchResp) :
    ∀ (fuel attempt : ℕ),
    (∀ i, i < fuel → ∃ r, resp (attempt + i) = Except.ok r ∧
      r.status = "processing") →
    pollAux resp attempt fuel = (fuel, PollOutcome.timeout)
  | 0, attempt, _ => rfl
  | Nat.succ f, attempt, h => by
    obtain ⟨r, hr, hs⟩ := h 0 (Nat.succ_pos f)
    rw [Nat.add_zero] at hr
    have hrec : pollAux resp (attempt + 1) f = (f, PollOutcome.timeout) :=
      pollAux_processing resp f (attempt + 1) (fun i hi => by
        have h2 := h (i + 1) (Nat.succ_lt_succ hi)
        rwa [show attempt + (i + 1) = attempt + 1 + i by omega] at h2)
    have hns : ¬ r.status = "success" := by rw [hs]; decide
    simp only [pollAux_step, hr]
    rw [if_neg hns, if_pos hs]
    simp only [hrec]

/-- The submission response `{status: processing, eta: 5, fetch_result: U}`. -/
def processingSubmitResp : ApiResponse :=
  { status := "processing", eta := some 5, fetch_result := some "U",
    future_links := [], output := [], message := none }

/-- The fetch response `{status: success, output: ["http://x/video.mp4"]}`. -/
def successFetchResp : FetchResp :=
  { status := "success", eta := none, output := ["http://x/video.mp4"],
    message := none }

/-- The constant `{status: processing, eta: 1}` fetch response. -/
def processingFetchResp : FetchResp :=
  { status := "processing", eta := some 1, output := [], message := none }

/-! ## C3 -/

/-- C3: when every GET of the fetch URL answers `status: processing`, the
loop performs exactly 10 polling attempts and ends in the
"taking longer than expected" warning outcome (no exception outcome). -/
theorem C3_poll_all_processing (resp : ℕ → Except Unit FetchResp)
    (h : ∀ i, i < 10 → ∃ r, resp i = Except.ok r ∧ r.status = "processing") :
    poll_loop resp = (10, PollOutcome.timeout) := by
  unfold poll_loop
  exact pollAux_processing resp 10 0 (fun i hi => by simpa using h i hi)

/-- Witness for C3: the spec scenario with the constant response
`{status: processing, eta: 1}`. -/
theorem C3_poll_all_processing_witness :
    poll_loop (fun _ => Except.ok processingFetchResp) =
      (10, PollOutcome.timeout) :=
  C3_poll_all_processing _ (fun i _ => ⟨processingFetchResp, rfl, rfl⟩)

/-! ## C4 -/

/-- C4: submission answers `{status: processing, eta: 5, fetch_result: U}`
and the first GET of the fetch URL answers
`{status: success, output: ["http://x/video.mp4"]}`: the flow performs
exactly 2 backend interactions (1 POST + 1 GET) and displays
`"http://x/video.mp4"` as the media URL. -/
theorem C4_two_interactions (polls : ℕ → Except Unit FetchResp)
    (h : polls 0 = Except.ok successFetchResp) :
    video_generation_flow (Except.ok processingSubmitResp) polls "p" 16 =
      (2, FlowOutcome.videoShown "http://x/video.mp4") := by
  have hg : generate_video_from_text (Except.ok processingSubmitResp)
      "p" "cogvideox" 512 512 16 20 (7 : ℚ) "mp4" 7 =
      (PyReturn.processing (some 5) (some "U") none, true) := by decide
  have hp : poll_loop polls = (1, PollOutcome.gotUrl "http://x/video.mp4") := by
    unfold poll_loop
    rw [show (10 : ℕ) = 9 + 1 from rfl, pollAux_step, h]
    rfl
  simp only [video_generation_flow, hg, hp]
  rfl

/-- Witness for C4: a concrete poll oracle whose first GET answers
success. -/
theorem C4_two_interactions_witness :
    video_generation_flow (Except.ok processingSubmitResp)
      (fun i => if i = 0 then Except.ok successFetchResp else Except.error ())
      "p" 16 = (2, FlowOutcome.videoShown "http://x/video.mp4") :=
  C4_two_interactions _ rfl

end SMA

namespace SMA

/-- A submission response with `status: success` used as the network oracle
in counterexamples (never reached when validation fails). -/
def successSubmitResp : ApiResponse :=
  { status := "success", eta := none, fetch_result := none,
    future_links := [], output := ["http://x/u.mp4"], message := none }

theorem validate_params_isSome (text_prompt model_id : String)
    (height width num_frames num_inference_steps : ℕ) (guidance_scale : ℚ)
    (output_type : String) (fps : ℕ)
    (h : num_frames = 26 ∨ fps = 17 ∨ height = 600 ∨ model_id = "other") :
    (validate_params text_prompt model_id height width num_frames
      num_inference_steps guidance_scale output_type fps).isSome = true := by
  unfold validate_params
  split_ifs with h1 h2 h3 h4 h5 h6 h7 h8 <;> try rfl
  exfalso
  rcases h with hh | hh | hh | hh
  · omega
  · omega
  · exact h3 (Or.inl (by omega))
  · subst hh
    exact absurd h2 (by decide)

theorem gen_body_of_invalid (resp : Except Unit ApiResponse)
    (text_prompt model_id : String)
    (height width num_frames num_inference_steps : ℕ) (guidance_scale : ℚ)
    (output_type : String) (fps : ℕ)
    (h : (validate_params text_prompt model_id height width num_frames
      num_inference_steps guidance_scale output_type fps).isSome = true) :
    generate_video_from_text resp text_prompt model_id height width
      num_frames num_inference_steps guidance_scale output_type fps =
      (PyReturn.pyNone, false) := by
  unfold generate_video_from_text gen_body
  cases hv : validate_params text_prompt model_id height width num_frames
      num_inference_steps guidance_scale output_type fps with
  | none => rw [hv] at h; simp at h
  | some m => rfl

/-! ## C2 -/

/-- C2 counterexample: calling `generate_video_from_text` with
`num_frames = 26` raises `ValueError` *inside* the function before any
network request, but the function's own generic `except` handler swallows
it, so the caller receives the normal return value `None` — no validation
error reaches the caller. -/
theorem C2_validation_error_swallowed :
    gen_body (Except.ok successSubmitResp)
      "p" "cogvideox" 512 512 26 20 (7 : ℚ) "mp4" 7 =
      (Except.error (GenErr.valueError "Number of frames cannot exceed 25"),
        false) ∧
    generate_video_from_text (Except.ok successSubmitResp)
      "p" "cogvideox" 512 512 26 20 (7 : ℚ) "mp4" 7 =
      (PyReturn.pyNone, false) := by
  constructor
  · rfl
  · rfl

/-- C2 amended: with any of the out-of-range parameters `num_frames = 26`,
`fps = 17`, `height = 600`, or `model_id = "other"`, the internal
validation fails before the network request (so no request is issued), the
resulting `ValueError` is caught inside the function, and the caller
receives `None`. -/
theorem C2_amended_validation_returns_none (resp : Except Unit ApiResponse)
    (text_prompt model_id : String)
    (height width num_frames num_inference_steps : ℕ) (guidance_scale : ℚ)
    (output_type : String) (fps : ℕ)
    (h : num_frames = 26 ∨ fps = 17 ∨ height = 600 ∨ model_id = "other") :
    generate_video_from_text resp text_prompt model_id height width
      num_frames num_inference_steps guidance_scale output_type fps =
      (PyReturn.pyNone, false) :=
  gen_body_of_invalid resp text_prompt model_id height width num_frames
    num_inference_steps guidance_scale output_type fps
    (validate_params_isSome text_prompt model_id height width num_frames
      num_inference_steps guidance_scale output_type fps h)

/-- Witness for the amended C2 theorem at `num_frames = 26`. -/
theorem C2_amended_validation_returns_none_witness :
    generate_video_from_text (Except.ok successSubmitResp)
      "p" "cogvideox" 512 512 26 20 (7 : ℚ) "mp4" 7 =
      (PyReturn.pyNone, false) :=
  C2_amended_validation_returns_none _ _ _ _ _ _ _ _ _ _ (Or.inl rfl)

end SMA

namespace SMA

/-! ## C6 -/

/-- C6 counterexample: the code lower-cases the selector before the lookup,
so `"Short"` — a string other than `"short"`, `"medium"`, `"long"` — maps
to `"30"`, not to the claimed default `"60"`.  (`app/main.py` in fact
always passes the capitalised selectors `"Short" | "Medium" | "Long"`.) -/
theorem C6_capitalised_selector_not_default :
    (generate_content "A prompt." "topic" "Video Script" "Casual" "Short"
      "story").video_length = "30" ∧
    "Short" ≠ "short" ∧ "Short" ≠ "medium" ∧ "Short" ≠ "long" ∧
    ("30" : String) ≠ "60" := by
  refine ⟨by decide, by decide, by decide, by decide, by decide⟩

/-- C6 amended: the mapping is applied to the *lower-cased* selector:
`lower = "short" → "30"`, `"medium" → "60"`, `"long" → "120"`, and any
string whose lower-casing is none of these maps to `"60"`. -/
theorem C6_amended_length_map (llm_reply topic content_type tone
    story_summary : String) (length : String) :
    (strToLower length = "short" →
      (generate_content llm_reply topic content_type tone length
        story_summary).video_length = "30") ∧
    (strToLower length = "medium" →
      (generate_content llm_reply topic content_type tone length
        story_summary).video_length = "60") ∧
    (strToLower length = "long" →
      (generate_content llm_reply topic content_type tone length
        story_summary).video_length = "120") ∧
    (strToLower length ≠ "short" → strToLower length ≠ "medium" →
      strToLower length ≠ "long" →
      (generate_content llm_reply topic content_type tone length
        story_summary).video_length = "60") := by
  refine ⟨?_, ?_, ?_, ?_⟩
  · intro h
    simp [generate_content, length_map_get, h]
  · intro h
    simp [generate_content, length_map_get, h]
  · intro h
    simp [generate_content, length_map_get, h]
  · intro h1 h2 h3
    simp [generate_content, length_map_get, h1, h2, h3]

/-- Witness for the amended C6 theorem at the selector `"Long"`. -/
theorem C6_amended_length_map_witness :
    (generate_content "A prompt." "topic" "Video Script" "Casual" "Long"
      "story").video_length = "120" :=
  (C6_amended_length_map "A prompt." "topic" "Video Script" "Casual"
    "story" "Long").2.2.1 (by decide)

/-! ## C9 -/

/-- C9 counterexample: a fetched item whose ISO-8601 duration string is
malformed (`"garbage"`) makes `fetch_trending_videos` propagate the parse
exception — the `except` clause catches only `HttpError`, and
`isodate.ISO8601Error` is not one — rather than degrade gracefully. -/
theorem C9_malformed_duration_crashes_fetch :
    fetch_trending_videos (Except.ok ["v1"])
      (fun _ => Except.ok
        [{ id := "v1", title := "t", description := "", publishedAt := "",
           channelId := "c", channelTitle := "ct", viewCount := some 5,
           likeCount := some 1, commentCount := some 0,
           duration := "garbage", tags := none, categoryId := "1" }]) 20 =
      Except.error FetchErr.parseError := rfl

/-- C9 amended: `analyze_trending_topics` does catch its parse failure
locally and degrades to an `{"error": ...}` dictionary, but
`fetch_trending_videos` does *not*: a malformed duration string in any
fetched item escapes as an uncaught exception. -/
theorem C9_amended_parse_error_handling :
    (analyze_trending_topics CompletionParse.decodeError =
      AnalysisResult.errorDict "Invalid analysis format") ∧
    (∀ msg, analyze_trending_topics (CompletionParse.otherError msg) =
      AnalysisResult.errorDict "Could not process analysis") ∧
    (∀ (ids : List String)
        (videosApi : String → Except ApiFail (List VideoItem))
        (items : List VideoItem) (it : VideoItem) (m : ℕ),
      videosApi (joinComma ids) = Except.ok items →
      it ∈ items → parse_duration it.duration = none →
      fetch_trending_videos (Except.ok ids) videosApi m =
        Except.error FetchErr.parseError) := by
  refine ⟨rfl, fun msg => rfl, ?_⟩
  intro ids videosApi items it m hapi hmem hdur
  have hbuild : buildVideos items = none := by
    clear hapi
    induction items with
    | nil => cases hmem
    | cons x xs ih =>
      rcases List.mem_cons.mp hmem with rfl | hx
      · simp only [buildVideos, video_data_of_item, hdur]
      · unfold buildVideos
        cases video_data_of_item x with
        | none => rfl
        | some v => rw [ih hx]
  simp only [fetch_trending_videos, hapi, hbuild]

/-- Witness for the amended C9 theorem at a concrete malformed item. -/
theorem C9_amended_parse_error_handling_witness :
    analyze_trending_topics CompletionParse.decodeError =
      AnalysisResult.errorDict "Invalid analysis format" ∧
    fetch_trending_videos (Except.ok ["v1"])
      (fun _ => Except.ok
        [{ id := "v1", title := "t", description := "", publishedAt := "",
           channelId := "c", channelTitle := "ct", viewCount := some 5,
           likeCount := some 1, commentCount := some 0,
           duration := "garbage", tags := none, categoryId := "1" }]) 20 =
      Except.error FetchErr.parseError :=
  ⟨C9_amended_parse_error_handling.1,
   C9_amended_parse_error_handling.2.2 ["v1"] _ _
     { id := "v1", title := "t", description := "", publishedAt := "",
       channelId := "c", channelTitle := "ct", viewCount := some 5,
       likeCount := some 1, commentCount := some 0,
       duration := "garbage", tags := none, categoryId := "1" } 20
     rfl (List.mem_singleton.mpr rfl) rfl⟩

end SMA

namespace SMA

/-! ## Deduplication lemmas for the tag extraction -/

theorem firstDedup_filter {α : Type} [DecidableEq α] (p : α → Bool)
    (l : List α) : firstDedup (l.filter p) = (firstDedup l).filter p := by
  induction l with
  | nil => rfl
  | cons x xs ih =>
    show firstDedup ((x :: xs).filter p) =
      List.filter p (x :: (firstDedup xs).filter (fun y => y ≠ x))
    by_cases hp : p x
    · rw [List.filter_cons_of_pos hp]
      show x :: (firstDedup (xs.filter p)).filter (fun y => y ≠ x) = _
      rw [ih, List.filter_cons_of_pos hp, List.filter_filter,
        List.filter_filter]
      refine congrArg (x :: ·) (List.filter_congr ?_)
      intro a _
      exact Bool.and_comm _ _
    · rw [List.filter_cons_of_neg hp]
      show firstDedup (xs.filter p) = _
      rw [ih, List.filter_cons_of_neg hp, List.filter_filter]
      refine (List.filter_congr ?_).symm
      intro a _
      by_cases hpa : p a
      · have hax : a ≠ x := fun hh => hp (hh ▸ hpa)
        simp [hpa, hax]
      · simp [hpa]

theorem firstDedup_append_of_mem {α : Type} [DecidableEq α] (x : α)
    (l2 : List α) :
    ∀ l1 : List α, x ∈ l1 →
      firstDedup (l1 ++ x :: l2) = firstDedup (l1 ++ l2)
  | [], h => absurd h (List.not_mem_nil x)
  | y :: l1, h => by
    simp only [List.cons_append]
    show y :: (firstDedup (l1 ++ x :: l2)).filter (fun z => z ≠ y) =
      y :: (firstDedup (l1 ++ l2)).filter (fun z => z ≠ y)
    obtain hxy | hx := List.mem_cons.mp h
    · subst hxy
      refine congrArg (x :: ·) ?_
      rw [← firstDedup_filter, ← firstDedup_filter,
        List.filter_append, List.filter_append,
        List.filter_cons_of_neg (by simp)]
    · rw [firstDedup_append_of_mem x l2 l1 hx]

theorem firstDedup_eq_self {α : Type} [DecidableEq α] :
    ∀ {l : List α}, l.Nodup → firstDedup l = l
  | [], _ => rfl
  | x :: xs, h => by
    obtain ⟨hx, hxs⟩ := List.nodup_cons.mp h
    show x :: (firstDedup xs).filter (fun y => y ≠ x) = x :: xs
    rw [firstDedup_eq_self hxs]
    refine congrArg (x :: ·) (List.filter_eq_self.mpr ?_)
    intro a ha
    simp only [ne_eq, decide_eq_true_eq]
    exact fun hh => hx (hh ▸ ha)

theorem add_summary_tags_dedup :
    ∀ (ws tags0 : List String),
      firstDedup (add_summary_tags tags0 ws) =
      firstDedup (tags0 ++
        ((ws.filter (fun w => w.length > 3)).map strToLower))
  | [], tags0 => by simp [add_summary_tags]
  | w :: ws, tags0 => by
    simp only [add_summary_tags, List.foldl_cons]
    by_cases hlen : w.length > 3
    · by_cases hmem : strToLower w ∈ tags0
      · rw [if_neg (by simp [hmem])]
        rw [show List.foldl (fun acc w =>
            if strToLower w ∉ acc ∧ w.length > 3
            then acc ++ [strToLower w] else acc) tags0 ws =
          add_summary_tags tags0 ws from rfl]
        rw [add_summary_tags_dedup ws tags0,
          List.filter_cons_of_pos (by simpa using hlen), List.map_cons]
        exact (firstDedup_append_of_mem _ _ _ hmem).symm
      · rw [if_pos ⟨hmem, hlen⟩]
        rw [show List.foldl (fun acc w =>
            if strToLower w ∉ acc ∧ w.length > 3
            then acc ++ [strToLower w] else acc) (tags0 ++ [strToLower w]) ws =
          add_summary_tags (tags0 ++ [strToLower w]) ws from rfl]
        rw [add_summary_tags_dedup ws (tags0 ++ [strToLower w]),
          List.filter_cons_of_pos (by simpa using hlen), List.map_cons,
          List.append_assoc, List.singleton_append]
    · rw [if_neg (by simp [hlen])]
      rw [show List.foldl (fun acc w =>
          if strToLower w ∉ acc ∧ w.length > 3
          then acc ++ [strToLower w] else acc) tags0 ws =
        add_summary_tags tags0 ws from rfl]
      rw [add_summary_tags_dedup ws tags0,
        List.filter_cons_of_neg (by simpa using hlen)]

/-! ## C7 -/

/-- C7: the tag extraction always returns at most 5 tags with no
duplicates; it equals the spec's description — comma-split topic tags
concatenated with the lower-cased summary tokens longer than 3 characters,
deduplicated in first-seen order, truncated to 5 — and it is idempotent:
re-running the extraction on any topic field that parses to a previous
output reproduces that output exactly. -/
theorem C7_tag_extraction (topic story_summary : String) :
    (extract_tags topic story_summary).length ≤ 5 ∧
    (extract_tags topic story_summary).Nodup ∧
    extract_tags topic story_summary =
      (firstDedup (topic_tags topic ++
        ((findWords story_summary).filter (fun w => w.length > 3)).map
          strToLower)).take 5 ∧
    (∀ topic2 : String,
      topic_tags topic2 = extract_tags topic story_summary →
      extract_tags topic2 "" = extract_tags topic story_summary) := by
  have hshape : extract_tags topic story_summary =
      (firstDedup (topic_tags topic ++
        ((findWords story_summary).filter (fun w => w.length > 3)).map
          strToLower)).take 5 := by
    simp only [extract_tags]
    by_cases hs : story_summary = ""
    · subst hs
      simp [findWords, wordsAux, String.toList]
    · rw [if_neg hs]
      exact congrArg (List.take 5) (add_summary_tags_dedup _ _)
  have hlen : (extract_tags topic story_summary).length ≤ 5 := by
    rw [hshape, List.length_take]
    exact min_le_left _ _
  have hnodup : (extract_tags topic story_summary).Nodup := by
    rw [hshape]
    exact List.Nodup.sublist (List.take_sublist _ _) (firstDedup_nodup _)
  refine ⟨hlen, hnodup, hshape, ?_⟩
  intro topic2 h
  have h0 : extract_tags topic2 "" = (firstDedup (topic_tags topic2)).take 5 :=
    rfl
  rw [h0, h, firstDedup_eq_self hnodup, List.take_of_length_le hlen]

/-- Witness for C7 at concrete inputs: the extraction of
`topic = "Cooking, Food"`, `summary = "A tasty tale of cooking"` is
reproduced exactly when fed back as the topic field. -/
theorem C7_tag_extraction_witness :
    topic_tags "Cooking,Food,tasty,tale,cooking" =
      extract_tags "Cooking, Food" "A tasty tale of cooking" ∧
    extract_tags "Cooking,Food,tasty,tale,cooking" "" =
      extract_tags "Cooking, Food" "A tasty tale of cooking" :=
  ⟨by decide,
   (C7_tag_extraction "Cooking, Food" "A tasty tale of cooking").2.2.2
     "Cooking,Food,tasty,tale,cooking" (by decide)⟩

end SMA

namespace SMA

/-! ## Sortedness and stability of `value_counts` -/

/-- The output of `value_counts` is sorted by strictly descending-or-equal
count, and entries with equal count appear in the order their key first
occurs in the input (the key's position in `firstDedup`). -/
theorem value_counts_sorted (l : List String) :
    (value_counts l).Pairwise (fun a b => b.2 ≤ a.2 ∧
      (a.2 = b.2 →
        (firstDedup l).indexOf a.1 < (firstDedup l).indexOf b.1)) := by
  classical
  set key : String × ℕ → ℕ := fun p => p.2 with hkey
  set ml : List (String × ℕ) :=
    (firstDedup l).map (fun k => (k, l.count k)) with hml
  set s : List (ℕ × (String × ℕ)) :=
    (ml.enum).insertionSort (keyRel key) with hs
  have hsorted : s.Pairwise (keyRel key) := List.sorted_insertionSort _ _
  have hperm : List.Perm s ml.enum := List.perm_insertionSort _ _
  have hnodup : s.Nodup := by
    refine hperm.symm.nodup ?_
    exact List.Nodup.of_map Prod.fst
      (by rw [List.enum_map_fst]; exact List.nodup_range _)
  have hmem : ∀ x ∈ s, ml[x.1]? = some x.2 := by
    intro x hx
    exact List.mem_enum_iff_getElem?.mp (hperm.mem_iff.mp hx)
  have hidx : ∀ x ∈ s, (firstDedup l).indexOf x.2.1 = x.1 := by
    intro x hx
    have h1 := hmem x hx
    rw [hml, List.getElem?_map] at h1
    cases h2 : (firstDedup l)[x.1]? with
    | none => rw [h2] at h1; simp at h1
    | some k =>
      rw [h2] at h1
      simp only [Option.map_some', Option.some.injEq] at h1
      obtain ⟨hlt, hget⟩ := List.getElem?_eq_some_iff.mp h2
      have hk1 : x.2.1 = k := by rw [← h1]
      rw [hk1, ← hget]
      exact List.indexOf_getElem (firstDedup_nodup l) x.1 hlt
  have hgoal : s.Pairwise (fun a b => b.2.2 ≤ a.2.2 ∧
      (a.2.2 = b.2.2 →
        (firstDedup l).indexOf a.2.1 < (firstDedup l).indexOf b.2.1)) := by
    refine List.Pairwise.imp_of_mem ?_ (hsorted.and hnodup)
    intro a b ha hb hab
    obtain ⟨hk, hne⟩ := hab
    constructor
    · rcases hk with hlt | ⟨heq, _⟩
      · exact le_of_lt hlt
      · exact le_of_eq heq.symm
    · intro heq
      rcases hk with hlt | ⟨_, hle⟩
      · exfalso
        simp only [hkey] at hlt
        omega
      · rw [hidx a ha, hidx b hb]
        rcases Nat.lt_or_ge a.1 b.1 with h | h
        · exact h
        · exfalso
          have hab1 : a.1 = b.1 := le_antisymm hle h
          apply hne
          have hma := hmem a ha
          have hmb := hmem b hb
          rw [hab1] at hma
          rw [hmb] at hma
          exact Prod.ext hab1 (Option.some.inj hma).symm
  have hvc : value_counts l = s.map Prod.snd := rfl
  rw [hvc, List.pairwise_map]
  exact hgoal

/-! ## C8 -/

/-- C8: in the analysis summary, `common_tags` and `top_categories` are
sorted by descending frequency, and entries with equal frequency appear in
the order in which their key was first seen in the input (the exploded tag
list and the category column respectively): the stable-sort tie order. -/
theorem C8_aggregates_sorted_stable (videos : List TrendingVideo)
    (s : AnalysisSummary)
    (h : analyze_video_performance videos = Except.ok s) :
    s.common_tags.Pairwise (fun a b => b.2 ≤ a.2 ∧
      (a.2 = b.2 →
        (firstDedup (videos.flatMap (fun v => v.tags))).indexOf a.1 <
        (firstDedup (videos.flatMap (fun v => v.tags))).indexOf b.1)) ∧
    s.top_categories.Pairwise (fun a b => b.2 ≤ a.2 ∧
      (a.2 = b.2 →
        (firstDedup (videos.map (fun v => v.category_id))).indexOf a.1 <
        (firstDedup (videos.map (fun v => v.category_id))).indexOf b.1)) := by
  cases videos with
  | nil => exact absurd h (by simp [analyze_video_performance])
  | cons v vs =>
    simp only [analyze_video_performance, Except.ok.injEq] at h
    subst h
    constructor
    · exact List.Pairwise.sublist (List.take_sublist _ _)
        (value_counts_sorted _)
    · exact List.Pairwise.sublist (List.take_sublist _ _)
        (value_counts_sorted _)

/-- Two concrete videos for the C8 witness: a tag tie (`a` vs `c`) and a
category tie (`1` vs `2`). -/
def c8Video1 : TrendingVideo :=
  { video_id := "v1", title := "t1", description := "", published_at := "",
    channel_id := "c", channel_title := "ct", views := 3, likes := 1,
    comments := 0, duration_seconds := 10, duration_formatted := "0:00:10",
    tags := ["a", "b", "c"], category_id := "1" }

def c8Video2 : TrendingVideo :=
  { video_id := "v2", title := "t2", description := "", published_at := "",
    channel_id := "c", channel_title := "ct", views := 2, likes := 1,
    comments := 1, duration_seconds := 20, duration_formatted := "0:00:20",
    tags := ["b"], category_id := "2" }

/-- Witness for C8 at a concrete two-video input with ties. -/
theorem C8_aggregates_sorted_stable_witness :
    (analyze_video_performance [c8Video1, c8Video2]).map
        (fun s => (s.common_tags, s.top_categories)) =
      Except.ok ([("b", 2), ("a", 1), ("c", 1)], [("1", 1), ("2", 1)]) ∧
    ∃ s, analyze_video_performance [c8Video1, c8Video2] = Except.ok s ∧
      (s.common_tags.Pairwise (fun a b => b.2 ≤ a.2 ∧
        (a.2 = b.2 →
          (firstDedup ([c8Video1, c8Video2].flatMap
            (fun v => v.tags))).indexOf a.1 <
          (firstDedup ([c8Video1, c8Video2].flatMap
            (fun v => v.tags))).indexOf b.1)) ∧
      s.top_categories.Pairwise (fun a b => b.2 ≤ a.2 ∧
        (a.2 = b.2 →
          (firstDedup ([c8Video1, c8Video2].map
            (fun v => v.category_id))).indexOf a.1 <
          (firstDedup ([c8Video1, c8Video2].map
            (fun v => v.category_id))).indexOf b.1))) := by
  refine ⟨by rfl, ⟨_, rfl, C8_aggregates_sorted_stable _ _ rfl⟩⟩

end SMA
